import Mathlib

/-!
# Verification of the VideoStreaming watch-party synchronization engine

Shallow embedding of `rust-backend/src/websocket.rs` and
`rust-backend/src/redis_service.rs`: the per-resource connection registry,
the watch-party session message handler (auth handshake, control-message
broadcast, relay publish) and the comment fan-out path, together with
theorems about the claims of the specification.
-/

namespace VideoStreaming

/-- A JSON value, mirroring `serde_json::Value` for the shapes this
subsystem produces and consumes (numbers are modelled as rationals; the
handler never computes with them, it only carries them through). -/
inductive Json where
  | null : Json
  | bool : Bool → Json
  | num : Rat → Json
  | str : String → Json
  | arr : List Json → Json
  | obj : List (String × Json) → Json

/-- First-match field lookup in a JSON object (`serde_json` object maps
have unique keys, so first-match agrees with map lookup); `none` on
non-objects or missing keys. -/
def Json.lookupField : Json → String → Option Json
  | .obj fields, k => fields.lookup k
  | _, _ => none

/-- `serde_json::Value` indexing (`value["k"]`): `Null` for missing keys
and for non-object values. -/
def Json.index (j : Json) (k : String) : Json :=
  (j.lookupField k).getD .null

/-- `Value::is_string`. -/
def Json.isString : Json → Bool
  | .str _ => true
  | _ => false

/-- A tokio mpsc sender endpoint, identified by the identity of its
underlying channel: clones of one sender share the id, so
`Sender::same_channel` is id equality. -/
abbrev Chan := Nat

/-- `tokio::sync::mpsc::Sender::same_channel`. -/
def sameChannel (a b : Chan) : Bool := a == b

/-- The process-wide client map backing `AppState.watchparty_clients` and
`AppState.video_clients`: `HashMap<i32, Vec<Sender<String>>>`, keyed by
video id. Modelled as an association list (the code only gets, inserts
and removes by key, so map iteration order never matters). -/
abbrev Registry := List (Int × List Chan)

def emptyRegistry : Registry := []

/-- `clients.get(&video_id)`. -/
def lookupReg (reg : Registry) (vid : Int) : Option (List Chan) :=
  reg.lookup vid

/-- `clients.entry(video_id).or_insert_with(Vec::new).push(tx)`. -/
def registerChan (reg : Registry) (vid : Int) (c : Chan) : Registry :=
  match reg with
  | [] => [(vid, [c])]
  | (v, l) :: rest =>
    if v = vid then (v, l ++ [c]) :: rest
    else (v, l) :: registerChan rest vid c

/-- The cleanup in `WatchPartyWebSocket::stopped` / `VideoWebSocket::stopped`:
`client_list.retain(|tx_ref| !tx_ref.same_channel(&tx))`, then
`clients.remove(&video_id)` when the list became empty. -/
def deregisterChan (reg : Registry) (vid : Int) (c : Chan) : Registry :=
  match reg with
  | [] => []
  | (v, l) :: rest =>
    if v = vid then
      let l' := l.filter (fun tx => !(sameChannel tx c))
      if l'.isEmpty then rest else (v, l') :: rest
    else (v, l) :: deregisterChan rest vid c

/-- Number of registry entries for `vid` that are the same channel as `c`. -/
def countChan (reg : Registry) (vid : Int) (c : Chan) : Nat :=
  (((lookupReg reg vid).getD []).filter (fun tx => sameChannel tx c)).length

/-- Everything the connect path of one watch-party connection registers:
`WatchPartyWebSocket::started` pushes a clone of the actor's `tx`, then
pushes the freshly created forwarding sender `client_tx`, and
`websocket_watchparty` pushes `tx` once more.  The three pushes run in
concurrently spawned tasks; they are written here in program order, and
the membership counts the claims are about do not depend on the order. -/
def watchPartyConnect (reg : Registry) (vid : Int) (tx clientTx : Chan) : Registry :=
  registerChan (registerChan (registerChan reg vid tx) vid clientTx) vid tx

/-- `WatchPartyWebSocket::stopped`: remove every entry that is
`same_channel` with the actor's `tx`, dropping the key when the list
becomes empty. -/
def watchPartyDisconnect (reg : Registry) (vid : Int) (tx : Chan) : Registry :=
  deregisterChan reg vid tx

/-- Inbound control message (`struct ControlMessage`): `action: String`,
`time: Option<f64>`. -/
structure ControlMessage where
  action : String
  time : Option Rat
deriving Repr

/-- Enriched outbound control message (`struct ControlMessageWithUser`).
The Rust struct derives `Serialize` with no rename attribute, so the JSON
field names are exactly the Rust field names, `type_field` included. -/
structure ControlMessageWithUser where
  type_field : String
  action : String
  time : Option Rat
  user_id : Int
  video_id : Int
  source_id : String
deriving Repr

/-- The message published to Redis (`struct WatchPartyMessage` in
`redis_service.rs`); again serialized with the Rust field names. -/
structure WatchPartyMessage where
  type_field : String
  video_id : Int
  user_id : Int
  action : String
  time : Option Rat
  source_id : String
deriving Repr

/-- `Option<f64>` serialization: `None` becomes JSON `null`. -/
def timeJson : Option Rat → Json
  | none => .null
  | some t => .num t

/-- Derived `Serialize` output for `ControlMessageWithUser`: an object
with the declared fields, in declaration order, under their Rust names. -/
def ControlMessageWithUser.toJson (m : ControlMessageWithUser) : Json :=
  .obj [("type_field", .str m.type_field),
        ("action", .str m.action),
        ("time", timeJson m.time),
        ("user_id", .num m.user_id),
        ("video_id", .num m.video_id),
        ("source_id", .str m.source_id)]

/-- Derived `Serialize` output for `WatchPartyMessage`. -/
def WatchPartyMessage.toJson (m : WatchPartyMessage) : Json :=
  .obj [("type_field", .str m.type_field),
        ("video_id", .num m.video_id),
        ("user_id", .num m.user_id),
        ("action", .str m.action),
        ("time", timeJson m.time),
        ("source_id", .str m.source_id)]

/-- `get_video_channel` in `redis_service.rs`. -/
def get_video_channel (vid : Int) : String :=
  "watchparty:video:" ++ toString vid

/-- `format!("user_{}_time_{}", user_id, timestamp)` in the handler. -/
def mkSourceId (uid : Int) (now : Nat) : String :=
  "user_" ++ toString uid ++ "_time_" ++ toString now

/-- An inbound text frame: `raw` is the text, `parsed` the result of
`serde_json::from_str::<Value>(&text)` (`none` when the text is not valid
JSON). -/
structure TextFrame where
  parsed : Option Json
  raw : String

/-- The auth-branch guard in the handler:
`auth_msg["type"] == "auth" && auth_msg["token"].is_string()`, returning
the token string when it matches. -/
def authToken (f : TextFrame) : Option String :=
  match f.parsed with
  | none => none
  | some j =>
    match j.index "type", j.index "token" with
    | .str ty, .str tok => if ty = "auth" then some tok else none
    | _, _ => none

/-- Derived `Deserialize` for `ControlMessage` applied to a JSON value:
needs an object whose `action` field is a string; `time` may be absent or
`null` (both give `None`) or a number; any other `time` value fails;
unknown fields are ignored (serde default). -/
def parseControlJson (j : Json) : Option ControlMessage :=
  match j with
  | .obj fields =>
    match fields.lookup "action" with
    | some (.str a) =>
      match fields.lookup "time" with
      | none => some ⟨a, none⟩
      | some .null => some ⟨a, none⟩
      | some (.num t) => some ⟨a, some t⟩
      | some _ => none
    | _ => none
  | _ => none

/-- `serde_json::from_str::<ControlMessage>(&text)`. -/
def parseControl (f : TextFrame) : Option ControlMessage :=
  f.parsed.bind parseControlJson

/-- One outbound websocket frame sent with `ctx.text`: either the raw
inbound text echoed verbatim, or the serialization of a JSON value. -/
inductive OutFrame where
  | raw : String → OutFrame
  | js : Json → OutFrame

/-- Session state of one `WatchPartyWebSocket` actor. -/
structure Session where
  video_id : Int
  user_id : Option Int
  authenticated : Bool
  tx : Chan

/-- The externally visible effects of handling one inbound websocket
message: frames sent back to this client (`ctx.text`/`ctx.pong`), the
message published to Redis, the sends into other clients' channels, and
whether the connection was stopped. -/
structure Effects where
  echo : List OutFrame
  published : Option (String × WatchPartyMessage)
  localSends : List (Chan × Json)
  pong : Option String
  halted : Bool

def noEffects : Effects :=
  { echo := [], published := none, localSends := [], pong := none, halted := false }

/-- The token verifier (`jsonwebtoken::decode::<Claims>` with the
application JWT secret): a collaborator, modelled as a function from the
bearer token to the resolved user id. -/
abbrev Verify := String → Option Int

/-- The local-broadcast loop of the handler's Redis-unavailable branch:
for each channel in the snapshot, skip it when it is `same_channel` with
the sender's `tx`, otherwise send the enriched message into it. -/
def localBroadcast (clientList : List Chan) (senderTx : Chan) (msg : Json) :
    List (Chan × Json) :=
  clientList.filterMap (fun c =>
    if sameChannel c senderTx then none else some (c, msg))

/-- The enriched message the handler builds from an inbound control
message: `user_id` is `self.user_id.unwrap_or(-1)`, `video_id` the
session's, `source_id` freshly generated from the sender and the clock. -/
def enrichedControl (s : Session) (cm : ControlMessage) (now : Nat) :
    ControlMessageWithUser :=
  ⟨"watchPartyControl", cm.action, cm.time, s.user_id.getD (-1), s.video_id,
   mkSourceId (s.user_id.getD (-1)) now⟩

/-- The `WatchPartyMessage` the handler publishes to Redis, built from the
same enriched data. -/
def relayMessage (s : Session) (cm : ControlMessage) (now : Nat) :
    WatchPartyMessage :=
  ⟨"watchPartyControl", s.video_id, s.user_id.getD (-1), cm.action, cm.time,
   mkSourceId (s.user_id.getD (-1)) now⟩

/-- The authenticated control-message path of the handler (websocket.rs
lines 295-383): enrich with `user_id` (`self.user_id.unwrap_or(-1)`),
`video_id` and a fresh `source_id`; echo the enriched JSON to the sender;
then, if a Redis client is available, publish the `WatchPartyMessage` to
the video's channel (and perform no local sends), otherwise fall back to
the local broadcast loop over the registry snapshot. -/
def controlEffects (now : Nat) (redisAvailable : Bool) (reg : Registry)
    (s : Session) (cm : ControlMessage) : Effects :=
  let msgJson := (enrichedControl s cm now).toJson
  let redisMessage := relayMessage s cm now
  if redisAvailable then
    { echo := [.js msgJson],
      published := some (get_video_channel s.video_id, redisMessage),
      localSends := [], pong := none, halted := false }
  else
    { echo := [.js msgJson], published := none,
      localSends := localBroadcast ((lookupReg reg s.video_id).getD []) s.tx msgJson,
      pong := none, halted := false }

/-- The text-frame branch of `WatchPartyWebSocket`'s `StreamHandler`:
first the auth branch (on a frame that looks like an auth message and
whose token verifies, record the user id, mark authenticated, send
nothing and return; on verification failure fall through), then the
unauthenticated drop, then control-message handling, and finally the
verbatim echo of opaque text. -/
def handleText (verify : Verify) (now : Nat) (redisAvailable : Bool)
    (reg : Registry) (s : Session) (f : TextFrame) : Session × Effects :=
  match (authToken f).bind verify with
  | some uid => ({ s with user_id := some uid, authenticated := true }, noEffects)
  | none =>
    if !s.authenticated && s.user_id.isNone then (s, noEffects)
    else
      match parseControl f with
      | some cm => (s, controlEffects now redisAvailable reg s cm)
      | none => (s, { noEffects with echo := [.raw f.raw] })

/-- One inbound websocket message as matched by the `StreamHandler`. -/
inductive WsMsg where
  | ping : String → WsMsg
  | text : TextFrame → WsMsg
  | close : WsMsg
  | other : WsMsg

/-- `WatchPartyWebSocket`'s full `StreamHandler::handle`: pings get a
pong, text frames go through `handleText`, a close frame stops the
session, everything else (binary, protocol errors, ...) is ignored. -/
def handleWs (verify : Verify) (now : Nat) (redisAvailable : Bool)
    (reg : Registry) (s : Session) (m : WsMsg) : Session × Effects :=
  match m with
  | .ping p => (s, { noEffects with pong := some p })
  | .text f => handleText verify now redisAvailable reg s f
  | .close => (s, { noEffects with halted := true })
  | .other => (s, noEffects)

/-! ## Comment fan-out (`broadcast_comment`, `websocket_comments`) -/

/-- A persisted comment (`struct Comment` in models.rs); `created_at`
(a `NaiveDateTime`) is carried as its serialized string. -/
structure Comment where
  id : Int
  video_id : Int
  user_id : Int
  content : String
  video_time : Int
  created_at : String
deriving Repr

/-- Derived `Serialize` output for `Comment`. -/
def Comment.toJson (c : Comment) : Json :=
  .obj [("id", .num c.id),
        ("video_id", .num c.video_id),
        ("user_id", .num c.user_id),
        ("content", .str c.content),
        ("video_time", .num c.video_time),
        ("created_at", .str c.created_at)]

/-- `broadcast_comment`: serialize the comment and send it into every
channel registered for the video in `video_clients`, with no exclusion. -/
def broadcast_comment (vid : Int) (c : Comment) (clients : Registry) :
    List (Chan × Json) :=
  ((lookupReg clients vid).getD []).map (fun tx => (tx, c.toJson))

/-- The messages `broadcast_comment` enqueues into one client's channel. -/
def queuedFor (z : Chan) (sends : List (Chan × Json)) : List Json :=
  sends.filterMap (fun p => if sameChannel p.1 z then some p.2 else none)

/-- The receive loop spawned in `websocket_comments` (websocket.rs lines
108-115): for every message taken off the connection's channel it only
logs — the loop body contains no path to the websocket context (the code
comment calls it a placeholder), so no frame is ever produced for the
client. -/
def commentClientFrames (queued : List Json) : List Json :=
  queued.foldl (fun acc _ => acc) []

/-- End-to-end comment delivery to one comment-stream client `z`: what
`z`'s websocket receives when a comment on `vid` is persisted and fanned
out while `z`'s channel is registered. -/
def commentPipelineFrames (vid : Int) (c : Comment) (clients : Registry)
    (z : Chan) : List Json :=
  commentClientFrames (queuedFor z (broadcast_comment vid c clients))

/-! ## Concrete fixtures used by counterexamples and witnesses -/

/-- A token verifier that rejects every token. -/
def verifyNone : Verify := fun _ => none

/-- A token verifier accepting `token10` (user 10) and `token99` (user 99). -/
def verifyDemo : Verify := fun t =>
  if t = "token10" then some 10 else if t = "token99" then some 99 else none

/-- A registry with channels 0, 1 and 7 registered for video 42. -/
def regC1 : Registry := [(42, [0, 1, 7])]

/-- A session on video 42, authenticated as user 10, owning channel 0. -/
def sC1 : Session := ⟨42, some 10, true, 0⟩

/-- An unauthenticated session on video 42 owning channel 0. -/
def sUnauth : Session := ⟨42, none, false, 0⟩

/-- The inbound text frame `{"action":"play"}`. -/
def fPlay : TextFrame :=
  ⟨some (.obj [("action", .str "play")]), "\x7b\"action\":\"play\"\x7d"⟩

/-- The inbound auth frame with token `badtoken`. -/
def fAuthBad : TextFrame :=
  ⟨some (.obj [("type", .str "auth"), ("token", .str "badtoken")]),
   "\x7b\"type\":\"auth\",\"token\":\"badtoken\"\x7d"⟩

/-- The inbound auth frame with token `token99`. -/
def fAuth99 : TextFrame :=
  ⟨some (.obj [("type", .str "auth"), ("token", .str "token99")]),
   "\x7b\"type\":\"auth\",\"token\":\"token99\"\x7d"⟩

/-- `fPlay` is not an auth-shaped message. -/
lemma authToken_fPlay : authToken fPlay = none := rfl

/-- The enriched JSON produced for `fPlay` by session `sC1` at time 1000. -/
def msgC1 : Json := (enrichedControl sC1 ⟨"play", none⟩ 1000).toJson

/-- A persisted comment on video 7 by user 3. -/
def commentC5 : Comment := ⟨1, 7, 3, "hello", 12, "2026-01-01T00:00:00"⟩

/-! ## Helper lemmas -/

/-- Anything the local broadcast loop sends went to a channel from the
snapshot that is not the sender's, and carries the broadcast message. -/
lemma mem_localBroadcast {clientList : List Chan} {sender : Chan} {msg : Json}
    {p : Chan × Json} (hp : p ∈ localBroadcast clientList sender msg) :
    sameChannel p.1 sender = false ∧ p.1 ∈ clientList ∧ p.2 = msg := by
  unfold localBroadcast at hp
  rw [List.mem_filterMap] at hp
  obtain ⟨c, hc, hif⟩ := hp
  by_cases h : sameChannel c sender = true
  · rw [if_pos h] at hif
    cases hif
  · rw [if_neg h] at hif
    cases hif
    simp only [Bool.not_eq_true] at h
    exact ⟨h, hc, rfl⟩

/-- Every channel of the snapshot other than the sender's receives the
broadcast message. -/
lemma localBroadcast_mem {clientList : List Chan} {sender : Chan} {msg : Json}
    {c : Chan} (hc : c ∈ clientList) (hne : sameChannel c sender = false) :
    (c, msg) ∈ localBroadcast clientList sender msg := by
  unfold localBroadcast
  rw [List.mem_filterMap]
  exact ⟨c, hc, by simp [hne]⟩

/-- On an authenticated session, a text frame that does not successfully
authenticate but parses as a control message takes the control path. -/
lemma handleText_control (verify : Verify) (now : Nat) (ra : Bool)
    (reg : Registry) (s : Session) (f : TextFrame) (cm : ControlMessage)
    (hauth : s.authenticated = true)
    (hna : ∀ t, authToken f = some t → verify t = none)
    (hcm : parseControl f = some cm) :
    handleText verify now ra reg s f = (s, controlEffects now ra reg s cm) := by
  have hbind : (authToken f).bind verify = none := by
    cases hTok : authToken f with
    | none => rfl
    | some t => simp [hna t hTok]
  unfold handleText
  rw [hbind]
  simp [hauth, hcm]

/-- The local sends of the full handler are empty except on the
broker-unavailable control path, where they are the local broadcast of
the enriched message over the registry snapshot. -/
lemma handleText_localSends (verify : Verify) (now : Nat) (ra : Bool)
    (reg : Registry) (s : Session) (f : TextFrame) :
    (handleText verify now ra reg s f).2.localSends = [] ∨
    ∃ cm, parseControl f = some cm ∧ ra = false ∧
      (handleText verify now ra reg s f).2.localSends =
        localBroadcast ((lookupReg reg s.video_id).getD []) s.tx
          (enrichedControl s cm now).toJson := by
    unfold handleText
    cases h1 : (authToken f).bind verify with
    | some uid => left; rfl
    | none =>
      by_cases h2 : (!s.authenticated && s.user_id.isNone) = true
      · rw [if_pos h2]; left; rfl
      · rw [if_neg h2]
        cases h3 : parseControl f with
        | none => left; rfl
        | some cm =>
          cases hra : ra with
          | true => left; rfl
          | false => right; exact ⟨cm, rfl, rfl, rfl⟩

/-! ## Claim theorems -/

/-- C1, counterexample: an authenticated session on video 42 receives
`{"action":"play"}` while the broker is available and channel 1 is
another registered channel for video 42; the handler publishes to the
Relay but performs no local-channel broadcast at all, refuting the claim
that the local broadcast happens regardless of broker availability. -/
theorem c1_counterexample :
    (1 : Chan) ∈ (lookupReg regC1 sC1.video_id).getD [] ∧
    sameChannel 1 sC1.tx = false ∧
    (handleWs verifyNone 1000 true regC1 sC1 (.text fPlay)).2.published =
      some (get_video_channel 42, relayMessage sC1 ⟨"play", none⟩ 1000) ∧
    (handleWs verifyNone 1000 true regC1 sC1 (.text fPlay)).2.localSends = [] :=
  ⟨by decide, by decide, rfl, rfl⟩

/-- C1, amended: an authenticated session receiving a well-formed control
message (under a frame that does not re-authenticate) tags it with a
source identity and echoes the enriched message to the sender; then, when
the broker is available it only publishes to the Relay (no local-channel
broadcast — local peers receive through their own Relay subscriptions),
and only when the broker is unavailable does it broadcast locally to
every other registered channel for the resource, excluding the sender. -/
theorem c1_amended (verify : Verify) (now : Nat) (ra : Bool) (reg : Registry)
    (s : Session) (f : TextFrame) (cm : ControlMessage)
    (hauth : s.authenticated = true)
    (hna : ∀ t, authToken f = some t → verify t = none)
    (hcm : parseControl f = some cm) :
    (handleWs verify now ra reg s (.text f)).1 = s ∧
    (handleWs verify now ra reg s (.text f)).2.echo =
      [.js (enrichedControl s cm now).toJson] ∧
    (handleWs verify now ra reg s (.text f)).2.halted = false ∧
    (ra = true →
      (handleWs verify now ra reg s (.text f)).2.published =
        some (get_video_channel s.video_id, relayMessage s cm now) ∧
      (handleWs verify now ra reg s (.text f)).2.localSends = []) ∧
    (ra = false →
      (handleWs verify now ra reg s (.text f)).2.published = none ∧
      ∀ c ∈ (lookupReg reg s.video_id).getD [], sameChannel c s.tx = false →
        (c, (enrichedControl s cm now).toJson) ∈
          (handleWs verify now ra reg s (.text f)).2.localSends) := by
  have h : handleWs verify now ra reg s (.text f) =
      (s, controlEffects now ra reg s cm) :=
    handleText_control verify now ra reg s f cm hauth hna hcm
  rw [h]
  refine ⟨rfl, ?_, ?_, ?_, ?_⟩
  · cases ra <;> rfl
  · cases ra <;> rfl
  · rintro rfl; exact ⟨rfl, rfl⟩
  · rintro rfl
    exact ⟨rfl, fun c hc hne => localBroadcast_mem hc hne⟩

/-- C1 amended, witness at the concrete input of the counterexample. -/
theorem c1_amended_witness :
    (handleWs verifyNone 1000 true regC1 sC1 (.text fPlay)).1 = sC1 ∧
    (handleWs verifyNone 1000 true regC1 sC1 (.text fPlay)).2.echo =
      [.js (enrichedControl sC1 ⟨"play", none⟩ 1000).toJson] ∧
    (handleWs verifyNone 1000 true regC1 sC1 (.text fPlay)).2.halted = false ∧
    (true = true →
      (handleWs verifyNone 1000 true regC1 sC1 (.text fPlay)).2.published =
        some (get_video_channel sC1.video_id, relayMessage sC1 ⟨"play", none⟩ 1000) ∧
      (handleWs verifyNone 1000 true regC1 sC1 (.text fPlay)).2.localSends = []) ∧
    (true = false →
      (handleWs verifyNone 1000 true regC1 sC1 (.text fPlay)).2.published = none ∧
      ∀ c ∈ (lookupReg regC1 sC1.video_id).getD [],
        sameChannel c sC1.tx = false →
        (c, (enrichedControl sC1 ⟨"play", none⟩ 1000).toJson) ∈
          (handleWs verifyNone 1000 true regC1 sC1 (.text fPlay)).2.localSends) :=
  c1_amended verifyNone 1000 true regC1 sC1 fPlay ⟨"play", none⟩ rfl
    (fun t h => by rw [authToken_fPlay] at h; exact Option.noConfusion h) rfl

/-- C2, counterexample: the enriched control message echoed for
`{"action":"play"}` serializes with no field named `type` at all — the
Rust struct field is `type_field` and carries no serde rename — refuting
the claim that the delivered JSON contains a field named `type` with
value `watchPartyControl`. -/
theorem c2_counterexample :
    (handleWs verifyNone 1000 true regC1 sC1 (.text fPlay)).2.echo =
      [.js (enrichedControl sC1 ⟨"play", none⟩ 1000).toJson] ∧
    Json.lookupField (enrichedControl sC1 ⟨"play", none⟩ 1000).toJson "type" =
      none ∧
    Json.lookupField (enrichedControl sC1 ⟨"play", none⟩ 1000).toJson
      "type_field" = some (.str "watchPartyControl") :=
  ⟨rfl, rfl, rfl⟩

/-- C2, amended: for every enriched control message produced from a
well-formed control message of an authenticated user, the JSON delivered
by echo and local broadcast carries the fields `type_field` (with value
`watchPartyControl`), `action`, `time`, `user_id`, `video_id` and
`source_id`, with `source_id` of the form
`user_<sender_user_id>_time_<millis>`; the relay payload carries the same
six fields. -/
theorem c2_amended (verify : Verify) (now : Nat) (ra : Bool) (reg : Registry)
    (s : Session) (f : TextFrame) (cm : ControlMessage) (uid : Int)
    (hauth : s.authenticated = true) (huid : s.user_id = some uid)
    (hna : ∀ t, authToken f = some t → verify t = none)
    (hcm : parseControl f = some cm) :
    (handleWs verify now ra reg s (.text f)).2.echo =
      [.js (enrichedControl s cm now).toJson] ∧
    (enrichedControl s cm now).toJson.lookupField "type_field" =
      some (.str "watchPartyControl") ∧
    (enrichedControl s cm now).toJson.lookupField "action" =
      some (.str cm.action) ∧
    (enrichedControl s cm now).toJson.lookupField "time" =
      some (timeJson cm.time) ∧
    (enrichedControl s cm now).toJson.lookupField "user_id" =
      some (.num uid) ∧
    (enrichedControl s cm now).toJson.lookupField "video_id" =
      some (.num s.video_id) ∧
    (enrichedControl s cm now).toJson.lookupField "source_id" =
      some (.str ("user_" ++ toString uid ++ "_time_" ++ toString now)) ∧
    (∀ p ∈ (handleWs verify now ra reg s (.text f)).2.localSends,
      p.2 = (enrichedControl s cm now).toJson) ∧
    (∀ ch m, (handleWs verify now ra reg s (.text f)).2.published =
        some (ch, m) →
      m.toJson.lookupField "type_field" = some (.str "watchPartyControl") ∧
      m.toJson.lookupField "action" = some (.str cm.action) ∧
      m.toJson.lookupField "time" = some (timeJson cm.time) ∧
      m.toJson.lookupField "user_id" = some (.num uid) ∧
      m.toJson.lookupField "video_id" = some (.num s.video_id) ∧
      m.toJson.lookupField "source_id" =
        some (.str ("user_" ++ toString uid ++ "_time_" ++ toString now))) := by
  have h : handleWs verify now ra reg s (.text f) =
      (s, controlEffects now ra reg s cm) :=
    handleText_control verify now ra reg s f cm hauth hna hcm
  have hgd : s.user_id.getD (-1) = uid := by rw [huid]; rfl
  have he : enrichedControl s cm now =
      ⟨"watchPartyControl", cm.action, cm.time, uid, s.video_id,
       mkSourceId uid now⟩ := by
    unfold enrichedControl; rw [hgd]
  have hr : relayMessage s cm now =
      ⟨"watchPartyControl", s.video_id, uid, cm.action, cm.time,
       mkSourceId uid now⟩ := by
    unfold relayMessage; rw [hgd]
  rw [h]
  refine ⟨?_, ?_, ?_, ?_, ?_, ?_, ?_, ?_, ?_⟩
  · cases ra <;> rfl
  · rfl
  · rfl
  · rfl
  · rw [he]; rfl
  · rfl
  · rw [he]; rfl
  · intro p hp
    cases ra with
    | true => cases hp
    | false => exact (mem_localBroadcast hp).2.2
  · intro ch m hpub
    cases ra with
    | false => exact Option.noConfusion hpub
    | true =>
      simp only [controlEffects, if_pos, Option.some.injEq, Prod.mk.injEq] at hpub
      obtain ⟨h1, h2⟩ := hpub
      rw [← h2, hr]
      exact ⟨rfl, rfl, rfl, rfl, rfl, rfl⟩

/-- C2 amended, witness: user 10 sends `{"action":"play"}` on video 42 at
time 1000 with the broker available. -/
theorem c2_amended_witness :
    (handleWs verifyNone 1000 true regC1 sC1 (.text fPlay)).2.echo =
      [.js (enrichedControl sC1 ⟨"play", none⟩ 1000).toJson] ∧
    (enrichedControl sC1 ⟨"play", none⟩ 1000).toJson.lookupField "type_field" =
      some (.str "watchPartyControl") ∧
    (enrichedControl sC1 ⟨"play", none⟩ 1000).toJson.lookupField "action" =
      some (.str (ControlMessage.mk "play" none).action) ∧
    (enrichedControl sC1 ⟨"play", none⟩ 1000).toJson.lookupField "time" =
      some (timeJson (ControlMessage.mk "play" none).time) ∧
    (enrichedControl sC1 ⟨"play", none⟩ 1000).toJson.lookupField "user_id" =
      some (.num (10 : Int)) ∧
    (enrichedControl sC1 ⟨"play", none⟩ 1000).toJson.lookupField "video_id" =
      some (.num sC1.video_id) ∧
    (enrichedControl sC1 ⟨"play", none⟩ 1000).toJson.lookupField "source_id" =
      some (.str ("user_" ++ toString (10 : Int) ++ "_time_" ++
        toString (1000 : Nat))) ∧
    (∀ p ∈ (handleWs verifyNone 1000 true regC1 sC1 (.text fPlay)).2.localSends,
      p.2 = (enrichedControl sC1 ⟨"play", none⟩ 1000).toJson) ∧
    (∀ ch m, (handleWs verifyNone 1000 true regC1 sC1 (.text fPlay)).2.published =
        some (ch, m) →
      m.toJson.lookupField "type_field" = some (.str "watchPartyControl") ∧
      m.toJson.lookupField "action" =
        some (.str (ControlMessage.mk "play" none).action) ∧
      m.toJson.lookupField "time" =
        some (timeJson (ControlMessage.mk "play" none).time) ∧
      m.toJson.lookupField "user_id" = some (.num (10 : Int)) ∧
      m.toJson.lookupField "video_id" = some (.num sC1.video_id) ∧
      m.toJson.lookupField "source_id" =
        some (.str ("user_" ++ toString (10 : Int) ++ "_time_" ++
          toString (1000 : Nat)))) :=
  c2_amended verifyNone 1000 true regC1 sC1 fPlay ⟨"play", none⟩ 10 rfl rfl
    (fun t h => by rw [authToken_fPlay] at h; exact Option.noConfusion h) rfl

/-- C3, evaluation at the failing input: one connection (tx = channel 0,
forwarding channel client_tx = channel 1) connects for video 42 and then
closes.  `stopped` removes only the entries `same_channel` with `tx`, so
the forwarding channel registered in `started` survives and the
`video_id` key stays in the map with a leaked channel — the claim (and
the spec's deregistration property) says the entry would contain none of
the connection's channels and the key would be gone. -/
theorem c3_disconnect_leak :
    watchPartyDisconnect (watchPartyConnect emptyRegistry 42 0 1) 42 0 =
      [(42, [1])] ∧
    lookupReg (watchPartyDisconnect (watchPartyConnect emptyRegistry 42 0 1)
      42 0) 42 = some [1] := by
  decide

/-- C4, evaluation at the failing input: a single connection (tx =
channel 0, client_tx = channel 1) connects for video 42; the connect path
pushes `tx` both in `started` and in `websocket_watchparty`, so the
connection's outbound channel appears twice in the registry list —
the claim says it is registered exactly once. -/
theorem c4_double_registration :
    countChan (watchPartyConnect emptyRegistry 42 0 1) 42 0 = 2 := by
  decide

/-- C5, evaluation at the failing input: client Z (channel 5) is
registered on the comment stream of video 7 when a comment by user 3 on
video 7 is persisted.  `broadcast_comment` does enqueue the serialized
comment into Z's channel, but the receive loop of `websocket_comments`
is a placeholder that only logs, so no frame ever reaches Z's websocket
— the claim says Z receives the full comment payload. -/
theorem c5_no_delivery_to_client :
    (5, commentC5.toJson) ∈ broadcast_comment 7 commentC5 [(7, [5])] ∧
    commentPipelineFrames 7 commentC5 [(7, [5])] 5 = [] :=
  ⟨List.Mem.head _, rfl⟩

/-- C6: when the broker is unavailable, an authenticated session's
well-formed control message is still sent to every other channel
registered for the resource in this process (origin excluded), and the
connection is not terminated — broker loss degrades to local-only
delivery. -/
theorem c6_broker_down_local_delivery (verify : Verify) (now : Nat)
    (reg : Registry) (s : Session) (f : TextFrame) (cm : ControlMessage)
    (c : Chan)
    (hauth : s.authenticated = true)
    (hna : ∀ t, authToken f = some t → verify t = none)
    (hcm : parseControl f = some cm)
    (hc : c ∈ (lookupReg reg s.video_id).getD [])
    (hne : sameChannel c s.tx = false) :
    (handleWs verify now false reg s (.text f)).2.halted = false ∧
    (c, (enrichedControl s cm now).toJson) ∈
      (handleWs verify now false reg s (.text f)).2.localSends := by
  have h : handleWs verify now false reg s (.text f) =
      (s, controlEffects now false reg s cm) :=
    handleText_control verify now false reg s f cm hauth hna hcm
  rw [h]
  exact ⟨rfl, localBroadcast_mem hc hne⟩

/-- C6, witness: with the broker down, channel 1 (another client of video
42) receives user 10's play message. -/
theorem c6_witness :
    (handleWs verifyNone 1000 false regC1 sC1 (.text fPlay)).2.halted = false ∧
    (1, (enrichedControl sC1 ⟨"play", none⟩ 1000).toJson) ∈
      (handleWs verifyNone 1000 false regC1 sC1 (.text fPlay)).2.localSends :=
  c6_broker_down_local_delivery verifyNone 1000 regC1 sC1 fPlay ⟨"play", none⟩
    1 rfl (fun t h => by rw [authToken_fPlay] at h; exact Option.noConfusion h)
    rfl (by decide) rfl

/-- C7: an unauthenticated session (no user id recorded) receiving any
text frame that does not successfully authenticate — control messages
included — drops it silently: state unchanged, nothing echoed, nothing
broadcast, nothing published, no pong, connection kept open. -/
theorem c7_unauthenticated_silent_drop (verify : Verify) (now : Nat)
    (ra : Bool) (reg : Registry) (s : Session) (f : TextFrame)
    (hauth : s.authenticated = false) (hid : s.user_id = none)
    (hna : ∀ t, authToken f = some t → verify t = none) :
    handleWs verify now ra reg s (.text f) = (s, noEffects) := by
  have hbind : (authToken f).bind verify = none := by
    cases hTok : authToken f with
    | none => rfl
    | some t => simp [hna t hTok]
  show handleText verify now ra reg s f = (s, noEffects)
  unfold handleText
  rw [hbind, hauth, hid]
  rfl

/-- C7, witness: a well-formed control message on an unauthenticated
session is dropped with no effects. -/
theorem c7_witness :
    handleWs verifyNone 5 true regC1 sUnauth (.text fPlay) =
      (sUnauth, noEffects) :=
  c7_unauthenticated_silent_drop verifyNone 5 true regC1 sUnauth fPlay rfl rfl
    (fun t h => by rw [authToken_fPlay] at h; exact Option.noConfusion h)

/-- C8: whatever the handler delivers through the local broadcast, each
target channel was compared by channel identity with the originating
session's channel and the origin was skipped — no local send ever goes
to a channel identity-equal to the sender's. -/
theorem c8_origin_exclusion (verify : Verify) (now : Nat) (ra : Bool)
    (reg : Registry) (s : Session) (m : WsMsg) (p : Chan × Json)
    (hp : p ∈ (handleWs verify now ra reg s m).2.localSends) :
    sameChannel p.1 s.tx = false := by
  cases m with
  | ping q => cases hp
  | close => cases hp
  | other => cases hp
  | text f =>
    rcases handleText_localSends verify now ra reg s f with h | ⟨cm, _, _, h⟩
    · rw [show (handleWs verify now ra reg s (.text f)).2.localSends =
          (handleText verify now ra reg s f).2.localSends from rfl, h] at hp
      cases hp
    · rw [show (handleWs verify now ra reg s (.text f)).2.localSends =
          (handleText verify now ra reg s f).2.localSends from rfl, h] at hp
      exact (mem_localBroadcast hp).1

/-- C8, witness: channel 1 is a delivered target of the broadcast of
user 10's play message and is not the sender's channel 0. -/
theorem c8_witness : sameChannel 1 sC1.tx = false :=
  c8_origin_exclusion verifyNone 1000 false regC1 sC1 (.text fPlay)
    (1, (enrichedControl sC1 ⟨"play", none⟩ 1000).toJson) (List.Mem.head _)

/-- C9: on an unauthenticated session, a well-formed auth message whose
token fails verification leaves the session unauthenticated with no user
id, and sends nothing whatsoever back to the client. -/
theorem c9_auth_failure_silent (verify : Verify) (now : Nat) (ra : Bool)
    (reg : Registry) (s : Session) (f : TextFrame) (t : String)
    (hauth : s.authenticated = false) (hid : s.user_id = none)
    (hTok : authToken f = some t) (hv : verify t = none) :
    handleWs verify now ra reg s (.text f) = (s, noEffects) := by
  show handleText verify now ra reg s f = (s, noEffects)
  unfold handleText
  rw [hTok]
  simp [hv, hauth, hid]

/-- C9, witness: the auth frame with the non-verifying token `badtoken`
on a fresh unauthenticated session produces no effect at all. -/
theorem c9_witness :
    handleWs verifyDemo 5 true emptyRegistry sUnauth (.text fAuthBad) =
      (sUnauth, noEffects) :=
  c9_auth_failure_silent verifyDemo 5 true emptyRegistry sUnauth fAuthBad
    "badtoken" rfl rfl rfl rfl

/-- C10: in any session state — even already authenticated — an auth
message whose token verifies is consumed by the auth branch before
control handling: the session's user id is overwritten with the token's
identity, the session is marked authenticated, and nothing is echoed,
broadcast or published. -/
theorem c10_reauth_consumes (verify : Verify) (now : Nat) (ra : Bool)
    (reg : Registry) (s : Session) (f : TextFrame) (t : String) (uid : Int)
    (hTok : authToken f = some t) (hv : verify t = some uid) :
    handleWs verify now ra reg s (.text f) =
      ({ s with user_id := some uid, authenticated := true }, noEffects) := by
  show handleText verify now ra reg s f = _
  unfold handleText
  rw [hTok]
  simp [hv]

/-- C10, witness: the session authenticated as user 10 re-authenticates
with user 99's token and switches its attributed identity, with no
outbound effect. -/
theorem c10_witness :
    handleWs verifyDemo 5 true regC1 sC1 (.text fAuth99) =
      ({ sC1 with user_id := some 99, authenticated := true }, noEffects) :=
  c10_reauth_consumes verifyDemo 5 true regC1 sC1 fAuth99 "token99" 99 rfl rfl

end VideoStreaming
